import Mathlib

/-!
Verification of the hyperlight host/guest call protocol slice.

Shallow embedding of:
- the flatbuffer wrapper data model (ParameterValue, ReturnValue, FunctionCall);
- hyperlight_host/src/func/ret_type.rs (SupportedReturnType impls);
- hyperlight_guest/src/host_function_call.rs (typed accessors, OutBAction,
  call_host_function);
- hyperlight_host/src/sandbox/initialized.rs (Sandbox::handle_outb);
- tests/rust_guests/simpleguest/src/main.rs (echo and its registration);
- hyperlight_host/src/capi/kvm.rs (kvm_set_sregisters).
-/

/-- Parameter type discriminators, mirroring
hyperlight_flatbuffers function_types::ParameterType. -/
inductive ParameterType where
  | String
  | Int
  | UInt
  | Long
  | ULong
  | Bool
  | VecBytes
  deriving DecidableEq, Repr

/-- Tagged parameter values, mirroring function_types::ParameterValue.
Machine integers are carried as Lean Int/Nat; no arithmetic is performed
on them in the verified slice, so no overflow modelling is needed. -/
inductive ParameterValue where
  | String (s : String)
  | Int (i : Int)
  | UInt (u : Nat)
  | Long (l : Int)
  | ULong (ul : Nat)
  | Bool (b : Bool)
  | VecBytes (v : List Nat)
  deriving DecidableEq, Repr

/-- Return type discriminators, mirroring function_types::ReturnType. -/
inductive ReturnType where
  | Void
  | String
  | Int
  | Long
  | UInt
  | ULong
  | Bool
  | VecBytes
  deriving DecidableEq, Repr

/-- Tagged return values, mirroring function_types::ReturnValue. -/
inductive ReturnValue where
  | Void
  | String (s : String)
  | Int (i : Int)
  | Long (l : Int)
  | UInt (u : Nat)
  | ULong (ul : Nat)
  | Bool (b : Bool)
  | VecBytes (v : List Nat)
  deriving DecidableEq, Repr

/-- The discriminator of a return value (the spec's "Return type is the
discriminator alone"). -/
def ReturnValue.discriminator : ReturnValue → ReturnType
  | .Void => .Void
  | .String _ => .String
  | .Int _ => .Int
  | .Long _ => .Long
  | .UInt _ => .UInt
  | .ULong _ => .ULong
  | .Bool _ => .Bool
  | .VecBytes _ => .VecBytes

/-- Mirrors function_call::FunctionCallType. -/
inductive FunctionCallType where
  | Guest
  | Host
  deriving DecidableEq, Repr

/-- Mirrors function_call::FunctionCall; the spec's data model names the
call-type field `kind`. -/
structure FunctionCall where
  function_name : String
  parameters : Option (List ParameterValue)
  kind : FunctionCallType
  return_type : ReturnType
  deriving DecidableEq, Repr

/-- Guest error codes, mirroring the generated flatbuffers ErrorCode
(the constructors the verified slice uses). -/
inductive ErrorCode where
  | NoError
  | OutbError
  | StackOverflow
  | GuestError
  | GuestFunctionNotFound
  | GuestFunctionParameterTypeMismatch
  | GuestFunctionIncorrectNumberOfParameters
  deriving DecidableEq, Repr

/-- Mirrors hyperlight_guest error::HyperlightGuestError. -/
structure HyperlightGuestError where
  code : ErrorCode
  message : String
  deriving DecidableEq, Repr

/-- The host-side error constructor used by ret_type.rs
(HyperlightError::ReturnValueConversionFailure carries the offending value
and the name of the target Rust type). -/
inductive HyperlightError where
  | ReturnValueConversionFailure (got : ReturnValue) (target : String)
  deriving DecidableEq, Repr

/-!  hyperlight_host/src/func/ret_type.rs: the SupportedReturnType trait,
one (get_hyperlight_type, get_hyperlight_value, get_inner) triple per
supported Rust type.  `log_then_return!` logs and returns the error; the
logging side effect is outside the embedding.  -/

def unit_get_hyperlight_type : ReturnType := .Void

def unit_get_hyperlight_value (_ : Unit) : ReturnValue := .Void

def unit_get_inner : ReturnValue → Except HyperlightError Unit
  | .Void => .ok ()
  | other => .error (.ReturnValueConversionFailure other "()")

def string_get_hyperlight_type : ReturnType := .String

def string_get_hyperlight_value (s : String) : ReturnValue := .String s

def string_get_inner : ReturnValue → Except HyperlightError String
  | .String i => .ok i
  | other => .error (.ReturnValueConversionFailure other "String")

def i32_get_hyperlight_type : ReturnType := .Int

def i32_get_hyperlight_value (i : Int) : ReturnValue := .Int i

def i32_get_inner : ReturnValue → Except HyperlightError Int
  | .Int i => .ok i
  | other => .error (.ReturnValueConversionFailure other "i32")

def i64_get_hyperlight_type : ReturnType := .Long

def i64_get_hyperlight_value (i : Int) : ReturnValue := .Long i

def i64_get_inner : ReturnValue → Except HyperlightError Int
  | .Long i => .ok i
  | other => .error (.ReturnValueConversionFailure other "i64")

def bool_get_hyperlight_type : ReturnType := .Bool

def bool_get_hyperlight_value (b : Bool) : ReturnValue := .Bool b

def bool_get_inner : ReturnValue → Except HyperlightError Bool
  | .Bool i => .ok i
  | other => .error (.ReturnValueConversionFailure other "bool")

def vecu8_get_hyperlight_type : ReturnType := .VecBytes

def vecu8_get_hyperlight_value (v : List Nat) : ReturnValue := .VecBytes v

def vecu8_get_inner : ReturnValue → Except HyperlightError (List Nat)
  | .VecBytes i => .ok i
  | other => .error (.ReturnValueConversionFailure other "Vec<u8>")

/-!  hyperlight_guest/src/host_function_call.rs: typed accessors over the
ReturnValue popped from shared input.  try_pop_shared_input_data_into is
defined in shared_input_data.rs, which is not part of this slice; each
accessor is therefore embedded as a function of the popped ReturnValue
(the `.expect` on deserialization failure is a guest panic and is outside
the embedding).  -/

def get_host_value_return_as_void : ReturnValue → Except HyperlightGuestError Unit
  | .Void => .ok ()
  | _ => .error ⟨.GuestError, "Host return value was not void as expected"⟩

def get_host_value_return_as_int : ReturnValue → Except HyperlightGuestError Int
  | .Int i => .ok i
  | _ => .error ⟨.GuestError, "Host return value was not an int as expected"⟩

def get_host_value_return_as_uint : ReturnValue → Except HyperlightGuestError Nat
  | .UInt ui => .ok ui
  | _ => .error ⟨.GuestError, "Host return value was not a uint as expected"⟩

def get_host_value_return_as_long : ReturnValue → Except HyperlightGuestError Int
  | .Long l => .ok l
  | _ => .error ⟨.GuestError, "Host return value was not a long as expected"⟩

def get_host_value_return_as_ulong : ReturnValue → Except HyperlightGuestError Nat
  | .ULong ul => .ok ul
  | _ => .error ⟨.GuestError, "Host return value was not a ulong as expected"⟩

def get_host_value_return_as_vecbytes : ReturnValue → Except HyperlightGuestError (List Nat)
  | .VecBytes v => .ok v
  | _ => .error ⟨.GuestError, "Host return value was not an VecBytes as expected"⟩

/-!  hyperlight_guest/src/host_function_call.rs: OutBAction and
call_host_function.  -/

/-- Guest-side OutBAction discriminants (host_function_call.rs lines 19-23). -/
inductive OutBAction where
  | Log
  | CallFunction
  | Abort
  deriving DecidableEq, Repr

/-- The u16 value of each guest-side OutBAction discriminant
(`Log = 99, CallFunction = 101, Abort = 102`). -/
def OutBAction.toU16 : OutBAction → Nat
  | .Log => 99
  | .CallFunction => 101
  | .Abort => 102

/-- Guest-visible state threaded through call_host_function: the decoded
frames currently in the shared output region (the codec round-trips, so a
frame is identified with its decoded FunctionCall), the bytes used and the
capacity of that region, and the trace of OUT instructions issued
(port, value). -/
structure GuestState where
  sharedOutput : List FunctionCall
  outputUsed : Nat
  outputCapacity : Nat
  events : List (Nat × Nat)
  deriving DecidableEq, Repr

/-- Modelled from the spec: push_shared_output_data lives in
shared_output_data.rs, which is missing from this slice.  Per the spec it
writes the size-prefixed frame into the shared output region and readers
reject frames exceeding the region's capacity; the frame's encoded size is
abstracted as a parameter. -/
def push_shared_output_data (size : FunctionCall → Nat) (st : GuestState)
    (fc : FunctionCall) : Option GuestState :=
  if st.outputUsed + size fc ≤ st.outputCapacity then
    some { st with sharedOutput := st.sharedOutput ++ [fc],
                   outputUsed := st.outputUsed + size fc }
  else
    none

/-- The guest's outb (host_function_call.rs lines 143-157): inside
hyperlight it executes the hloutb trampoline, whose `out dx, al` raises an
IoOut exit; embedded as appending the (port, value) event to the trace. -/
def outb (st : GuestState) (port : Nat) (value : Nat) : GuestState :=
  { st with events := st.events ++ [(port, value)] }

/-- call_host_function (host_function_call.rs lines 118-141).  The guest
builds a FunctionCall with FunctionCallType::Host, validates it with
validate_host_function_call (host_functions.rs, not in this slice, so the
validator is a parameter), serializes it (`try_into` panics on
serialization failure, outside the embedding), pushes it to shared output,
and issues OUT on the CallFunction port with value 0. -/
def call_host_function
    (validate : FunctionCall → Except HyperlightGuestError Unit)
    (size : FunctionCall → Nat) (st : GuestState) (function_name : String)
    (parameters : Option (List ParameterValue)) (return_type : ReturnType) :
    Except HyperlightGuestError Unit × GuestState :=
  let host_function_call : FunctionCall :=
    ⟨function_name, parameters, .Host, return_type⟩
  match validate host_function_call with
  | .error e => (.error e, st)
  | .ok _ =>
    match push_shared_output_data size st host_function_call with
    | none =>
      (.error ⟨.GuestError, "Not enough space in shared output"⟩, st)
    | some st1 =>
      (.ok (), outb st1 OutBAction.CallFunction.toU16 0)

/-!  hyperlight_host/src/sandbox/initialized.rs: Sandbox::handle_outb.  -/

/-- Modelled from the spec: the host-side OutBAction enum and its From u16
conversion live in sandbox/outb.rs, which is missing from this slice.  The
spec's port map is 99 = Log, 101 = CallFunction, 102 = Abort, with any
other port unclassified. -/
inductive HostOutBAction where
  | Log
  | CallFunction
  | Abort
  | Unclassified
  deriving DecidableEq, Repr

/-- Modelled from the spec: classification of a port number by the host
dispatcher (99 = Log, 101 = CallFunction, 102 = Abort). -/
def hostOutBActionOfPort (port : Nat) : HostOutBAction :=
  if port = 99 then .Log
  else if port = 101 then .CallFunction
  else if port = 102 then .Abort
  else .Unclassified

/-- The slice of Sandbox state that handle_outb touches: the stack cookie
recorded at initialization (stack_guard), the 16 bytes currently at
stack_cookie_addr in guest memory, the pending guest-to-host call frame in
shared output (what mem_mgr.get_host_function_call decodes), and the
responses written to shared input. -/
structure HostSandbox where
  stack_guard : List Nat
  cookieBytes : List Nat
  sharedOutputCall : Option FunctionCall
  sharedInput : List ReturnValue
  deriving DecidableEq, Repr

/-- Outcome of one handle_outb turn: Ok (the dispatcher returns Ok(()) and
the VCPU will be resumed), an error propagated to the caller, or a panic
(the `todo` arms). -/
inductive OutbResult where
  | ok (sb : HostSandbox)
  | err (msg : String)
  | panicTodo
  deriving DecidableEq, Repr

/-- Sandbox::handle_outb (initialized.rs lines 118-138).  Log forwards a
log record (outb_log, no sandbox mutation); CallFunction decodes the
pending frame, runs the host function (call_host_function of the
CallHostFunction trait, host_funcs.rs not in this slice, so a parameter)
and writes its response to shared input; the Abort arm and the catch-all
arm are both `todo` and panic.  The byte argument is never read. -/
def handle_outb
    (callHost : String → List ParameterValue → Except String ReturnValue)
    (sb : HostSandbox) (port : Nat) (_byte : Nat) : OutbResult :=
  match hostOutBActionOfPort port with
  | .Log => .ok sb
  | .CallFunction =>
    match sb.sharedOutputCall with
    | none => .err "no host function call found in shared output"
    | some call =>
      match callHost call.function_name (call.parameters.getD []) with
      | .error e => .err e
      | .ok res => .ok { sb with sharedInput := sb.sharedInput ++ [res] }
  | .Abort => .panicTodo
  | .Unclassified => .panicTodo

/-!  Single-flight guard on call_guest_function.  Sandbox stores
`executing_guest_call : AtomicBool` (initialized.rs lines 33 and 44) and
exposes it through GuestMgr (lines 76-100); the call_guest_function body
itself lives in sandbox/guest_funcs.rs, which is missing from this slice.  -/

/-- Outcome of one attempt to enter call_guest_function. -/
inductive GuestCallOutcome where
  | proceeds
  | alreadyInProgress
  deriving DecidableEq, Repr

/-- Modelled from the spec: call_guest_function (sandbox/guest_funcs.rs,
missing from this slice) guards entry with a compare-and-set of the atomic
flag executing_guest_call from false to true; a failed compare-and-set
returns GuestCallAlreadyInProgress without blocking.  The function maps
the flag's current value to the attempt's outcome and the flag's new
value. -/
def try_enter_guest_call (flag : Bool) : GuestCallOutcome × Bool :=
  if flag then (.alreadyInProgress, true) else (.proceeds, true)

/-- Modelled from the spec: n concurrent invocations racing on one atomic
flag.  The compare-and-set is atomic, so every interleaving is some
sequential order of the n attempts; this runs them in that order against
the shared flag and collects the outcomes. -/
def run_concurrent_attempts (flag : Bool) : Nat → List GuestCallOutcome
  | 0 => []
  | n + 1 =>
    let r := try_enter_guest_call flag
    r.1 :: run_concurrent_attempts r.2 n

/-!  tests/rust_guests/simpleguest/src/main.rs: echo and its
registration.  -/

/-- Mirrors flatbuffer_wrappers guest_function_definition; the handler
address (`echo as i64`) is an in-guest code address with no counterpart in
the embedding and is carried as an uninterpreted Int. -/
structure GuestFunctionDefinition where
  function_name : String
  parameter_types : List ParameterType
  return_type : ReturnType
  function_pointer : Int
  deriving DecidableEq, Repr

/-- Outcome of a guest function body: an encoded flatbuffer result
(identified with the ReturnValue it encodes, the codec being a round-trip),
a guest error, or a panic (`unwrap` of absent parameters or an
out-of-bounds index). -/
inductive GuestFnResult where
  | ok (encoded : ReturnValue)
  | err (e : HyperlightGuestError)
  | panic
  deriving DecidableEq, Repr

/-- echo (simpleguest main.rs lines 438-447): if parameter 0 is a String,
return get_flatbuffer_result_from_string of it (flatbuffer_utils.rs is not
in this slice; per the spec's codec it encodes the String return value);
otherwise a GuestFunctionParameterTypeMismatch error.
`parameters.clone().unwrap()[0]` panics when parameters is None or
empty. -/
def echo (function_call : FunctionCall) : GuestFnResult :=
  match function_call.parameters with
  | some (ParameterValue.String value :: _) => .ok (.String value)
  | some (_ :: _) =>
    .err ⟨.GuestFunctionParameterTypeMismatch, "Invalid parameters passed to echo"⟩
  | some [] => .panic
  | none => .panic

/-- echo_def (simpleguest main.rs lines 764-770): GuestFunctionDefinition
new with name Echo, parameter types [String], return type Int, and
`echo as i64` as the handler address. -/
def echo_def : GuestFunctionDefinition :=
  ⟨"Echo", [.String], .Int, 0⟩

/-!  hyperlight_host/src/capi/kvm.rs: kvm_set_sregisters.  -/

/-- Modelled from the spec: the SRegs bank (hypervisor/kvm_regs.rs is
missing from this slice); the spec's segment and control-register bank is
cs, ds, es, fs, gs, ss, tr, ldt, gdt, idt, cr0, cr2, cr3, cr4, efer,
apic_base.  Register contents are uninterpreted. -/
structure SRegs where
  cs : Nat
  ds : Nat
  es : Nat
  fs : Nat
  gs : Nat
  ss : Nat
  tr : Nat
  ldt : Nat
  gdt : Nat
  idt : Nat
  cr0 : Nat
  cr2 : Nat
  cr3 : Nat
  cr4 : Nat
  efer : Nat
  apic_base : Nat
  deriving DecidableEq, Repr

/-- Modelled from the spec: CSRegs (hypervisor/kvm_regs.rs missing from
this slice); per the comment on kvm_get_sregisters it is identical to the
SRegs struct with the private kvm_sregs field removed. -/
structure CSRegs where
  cs : Nat
  ds : Nat
  es : Nat
  fs : Nat
  gs : Nat
  ss : Nat
  tr : Nat
  ldt : Nat
  gdt : Nat
  idt : Nat
  cr0 : Nat
  cr2 : Nat
  cr3 : Nat
  cr4 : Nat
  efer : Nat
  apic_base : Nat
  deriving DecidableEq, Repr

/-- kvm_set_sregisters (capi/kvm.rs lines 503-532).  The vcpu handle lookup
(get_vcpufd) and the stored-sregisters lookup (get_sregisters_from_handle)
each fail on an invalid handle, returning an error handle; on valid
handles the stored bank is copied, its cs, cr0, cr3, cr4 and efer fields
are overwritten from the CSRegs argument, and the resulting bank is
written to the VCPU (kvm::set_sregisters).  The embedding returns the bank
written, or none when a lookup failed. -/
def kvm_set_sregisters (vcpufd_hdl : Option Unit) (sregs_hdl : Option SRegs)
    (csregs : CSRegs) : Option SRegs :=
  match vcpufd_hdl with
  | none => none
  | some _ =>
    match sregs_hdl with
    | none => none
    | some sregs =>
      some { sregs with cs := csregs.cs, cr0 := csregs.cr0, cr3 := csregs.cr3,
                        cr4 := csregs.cr4, efer := csregs.efer }

/-!  Claim theorems.  -/

/-- Claim C7: for every supported host return type T, the discriminator of
get_hyperlight_value equals get_hyperlight_type, get_inner inverts
get_hyperlight_value, and get_inner on any ReturnValue whose discriminator
differs fails with ReturnValueConversionFailure. -/
theorem c7_supported_return_type_laws :
    ((∀ x : Unit, (unit_get_hyperlight_value x).discriminator = unit_get_hyperlight_type) ∧
     (∀ x : Unit, unit_get_inner (unit_get_hyperlight_value x) = .ok x) ∧
     (∀ v : ReturnValue, v.discriminator ≠ unit_get_hyperlight_type →
        unit_get_inner v = .error (.ReturnValueConversionFailure v "()"))) ∧
    ((∀ x : String, (string_get_hyperlight_value x).discriminator = string_get_hyperlight_type) ∧
     (∀ x : String, string_get_inner (string_get_hyperlight_value x) = .ok x) ∧
     (∀ v : ReturnValue, v.discriminator ≠ string_get_hyperlight_type →
        string_get_inner v = .error (.ReturnValueConversionFailure v "String"))) ∧
    ((∀ x : Int, (i32_get_hyperlight_value x).discriminator = i32_get_hyperlight_type) ∧
     (∀ x : Int, i32_get_inner (i32_get_hyperlight_value x) = .ok x) ∧
     (∀ v : ReturnValue, v.discriminator ≠ i32_get_hyperlight_type →
        i32_get_inner v = .error (.ReturnValueConversionFailure v "i32"))) ∧
    ((∀ x : Int, (i64_get_hyperlight_value x).discriminator = i64_get_hyperlight_type) ∧
     (∀ x : Int, i64_get_inner (i64_get_hyperlight_value x) = .ok x) ∧
     (∀ v : ReturnValue, v.discriminator ≠ i64_get_hyperlight_type →
        i64_get_inner v = .error (.ReturnValueConversionFailure v "i64"))) ∧
    ((∀ x : Bool, (bool_get_hyperlight_value x).discriminator = bool_get_hyperlight_type) ∧
     (∀ x : Bool, bool_get_inner (bool_get_hyperlight_value x) = .ok x) ∧
     (∀ v : ReturnValue, v.discriminator ≠ bool_get_hyperlight_type →
        bool_get_inner v = .error (.ReturnValueConversionFailure v "bool"))) ∧
    ((∀ x : List Nat, (vecu8_get_hyperlight_value x).discriminator = vecu8_get_hyperlight_type) ∧
     (∀ x : List Nat, vecu8_get_inner (vecu8_get_hyperlight_value x) = .ok x) ∧
     (∀ v : ReturnValue, v.discriminator ≠ vecu8_get_hyperlight_type →
        vecu8_get_inner v = .error (.ReturnValueConversionFailure v "Vec<u8>"))) := by
  refine ⟨⟨fun _ => rfl, fun _ => rfl, fun v h => ?_⟩,
          ⟨fun _ => rfl, fun _ => rfl, fun v h => ?_⟩,
          ⟨fun _ => rfl, fun _ => rfl, fun v h => ?_⟩,
          ⟨fun _ => rfl, fun _ => rfl, fun v h => ?_⟩,
          ⟨fun _ => rfl, fun _ => rfl, fun v h => ?_⟩,
          ⟨fun _ => rfl, fun _ => rfl, fun v h => ?_⟩⟩ <;>
    cases v <;> first | rfl | exact absurd rfl h

/-- Witness for C7 at concrete inputs: a mismatched value is rejected with
ReturnValueConversionFailure and a round-trip succeeds. -/
theorem c7_supported_return_type_laws_witness :
    unit_get_inner (ReturnValue.Int 3) =
      .error (.ReturnValueConversionFailure (ReturnValue.Int 3) "()") ∧
    i32_get_inner (i32_get_hyperlight_value 7) = .ok 7 :=
  ⟨c7_supported_return_type_laws.1.2.2 (ReturnValue.Int 3) (by decide),
   (c7_supported_return_type_laws.2.2.1.2.1) 7⟩

/-- Claim C8: each typed accessor get_host_value_return_as_T returns Ok
with the inner value exactly when the popped discriminator is the one T
expects; any other discriminator yields an error with code GuestError. -/
theorem c8_typed_accessors_match_discriminator :
    ((get_host_value_return_as_void .Void = .ok ()) ∧
     (∀ rv : ReturnValue, rv.discriminator ≠ .Void →
        get_host_value_return_as_void rv =
          .error ⟨.GuestError, "Host return value was not void as expected"⟩)) ∧
    ((∀ i, get_host_value_return_as_int (.Int i) = .ok i) ∧
     (∀ rv : ReturnValue, rv.discriminator ≠ .Int →
        get_host_value_return_as_int rv =
          .error ⟨.GuestError, "Host return value was not an int as expected"⟩)) ∧
    ((∀ u, get_host_value_return_as_uint (.UInt u) = .ok u) ∧
     (∀ rv : ReturnValue, rv.discriminator ≠ .UInt →
        get_host_value_return_as_uint rv =
          .error ⟨.GuestError, "Host return value was not a uint as expected"⟩)) ∧
    ((∀ l, get_host_value_return_as_long (.Long l) = .ok l) ∧
     (∀ rv : ReturnValue, rv.discriminator ≠ .Long →
        get_host_value_return_as_long rv =
          .error ⟨.GuestError, "Host return value was not a long as expected"⟩)) ∧
    ((∀ ul, get_host_value_return_as_ulong (.ULong ul) = .ok ul) ∧
     (∀ rv : ReturnValue, rv.discriminator ≠ .ULong →
        get_host_value_return_as_ulong rv =
          .error ⟨.GuestError, "Host return value was not a ulong as expected"⟩)) ∧
    ((∀ v, get_host_value_return_as_vecbytes (.VecBytes v) = .ok v) ∧
     (∀ rv : ReturnValue, rv.discriminator ≠ .VecBytes →
        get_host_value_return_as_vecbytes rv =
          .error ⟨.GuestError, "Host return value was not an VecBytes as expected"⟩)) := by
  refine ⟨⟨rfl, fun v h => ?_⟩, ⟨fun _ => rfl, fun v h => ?_⟩,
          ⟨fun _ => rfl, fun v h => ?_⟩, ⟨fun _ => rfl, fun v h => ?_⟩,
          ⟨fun _ => rfl, fun v h => ?_⟩, ⟨fun _ => rfl, fun v h => ?_⟩⟩ <;>
    cases v <;> first | rfl | exact absurd rfl h

/-- Witness for C8 at concrete inputs: a String popped where an int was
expected yields a GuestError, and a matching pop returns the inner
value. -/
theorem c8_typed_accessors_witness :
    get_host_value_return_as_int (.String "x") =
      .error ⟨.GuestError, "Host return value was not an int as expected"⟩ ∧
    get_host_value_return_as_long (.Long 9) = .ok 9 :=
  ⟨c8_typed_accessors_match_discriminator.2.1.2 (.String "x") (by decide),
   c8_typed_accessors_match_discriminator.2.2.2.1.1 9⟩

/-- Claim C5: call_host_function validates first; on validation failure it
returns the error with shared output untouched and no OUT issued; on
success (with room in shared output) the frame is written and only then is
OUT port 101 value 0 issued. -/
theorem c5_call_host_function_validate_write_then_out
    (validate : FunctionCall → Except HyperlightGuestError Unit)
    (size : FunctionCall → Nat) (st : GuestState) (name : String)
    (params : Option (List ParameterValue)) (rt : ReturnType) :
    (∀ e, validate ⟨name, params, .Host, rt⟩ = .error e →
      call_host_function validate size st name params rt = (.error e, st)) ∧
    (validate ⟨name, params, .Host, rt⟩ = .ok () →
      st.outputUsed + size ⟨name, params, .Host, rt⟩ ≤ st.outputCapacity →
      call_host_function validate size st name params rt =
        (.ok (), { st with
          sharedOutput := st.sharedOutput ++ [⟨name, params, .Host, rt⟩],
          outputUsed := st.outputUsed + size ⟨name, params, .Host, rt⟩,
          events := st.events ++ [(101, 0)] })) ∧
    ((call_host_function validate size st name params rt).2.events ≠ st.events →
      (call_host_function validate size st name params rt).2.sharedOutput =
        st.sharedOutput ++ [⟨name, params, .Host, rt⟩] ∧
      (call_host_function validate size st name params rt).2.events =
        st.events ++ [(101, 0)]) := by
  refine ⟨?_, ?_, ?_⟩
  · intro e he
    simp [call_host_function, he]
  · intro hv hcap
    simp [call_host_function, hv, push_shared_output_data, hcap, outb, OutBAction.toU16]
  · intro hne
    cases hval : validate ⟨name, params, FunctionCallType.Host, rt⟩ with
    | error e =>
      simp [call_host_function, hval] at hne
    | ok u =>
      by_cases hcap :
          st.outputUsed + size ⟨name, params, FunctionCallType.Host, rt⟩ ≤ st.outputCapacity
      · simp [call_host_function, hval, push_shared_output_data, hcap, outb, OutBAction.toU16]
      · simp [call_host_function, hval, push_shared_output_data, hcap] at hne

/-- Witness for C5 at a concrete call: a validator that accepts writes the
Host frame and then issues OUT port 101 value 0. -/
theorem c5_call_host_function_witness :
    call_host_function (fun _ => .ok ()) (fun _ => 1) ⟨[], 0, 8, []⟩ "HostPrint"
        (some [ParameterValue.String "x"]) .Int =
      (.ok (), ⟨[⟨"HostPrint", some [ParameterValue.String "x"], .Host, .Int⟩],
                1, 8, [(101, 0)]⟩) := by
  have h := (c5_call_host_function_validate_write_then_out (fun _ => .ok ())
    (fun _ => 1) ⟨[], 0, 8, []⟩ "HostPrint"
    (some [ParameterValue.String "x"]) .Int).2.1 rfl (by decide)
  simpa using h

/-- Claim C9: every frame in shared output after call_host_function that
was not already there has kind Host, for every name, parameter list and
declared return type. -/
theorem c9_call_host_function_frames_are_host_kind
    (validate : FunctionCall → Except HyperlightGuestError Unit)
    (size : FunctionCall → Nat) (st : GuestState) (name : String)
    (params : Option (List ParameterValue)) (rt : ReturnType) :
    ∀ fc ∈ (call_host_function validate size st name params rt).2.sharedOutput,
      fc ∈ st.sharedOutput ∨ fc.kind = .Host := by
  intro fc hfc
  cases hval : validate ⟨name, params, FunctionCallType.Host, rt⟩ with
  | error e =>
    simp [call_host_function, hval] at hfc
    exact Or.inl hfc
  | ok u =>
    by_cases hcap :
        st.outputUsed + size ⟨name, params, FunctionCallType.Host, rt⟩ ≤ st.outputCapacity
    · simp [call_host_function, hval, push_shared_output_data, hcap, outb] at hfc
      rcases hfc with hfc | hfc
      · exact Or.inl hfc
      · subst hfc
        exact Or.inr rfl
    · simp [call_host_function, hval, push_shared_output_data, hcap] at hfc
      exact Or.inl hfc

/-- Witness for C9 at a concrete call: the one frame produced from an
empty shared output has kind Host. -/
theorem c9_call_host_function_frames_witness :
    (⟨"HostPrint", some [ParameterValue.String "x"], .Host, .Int⟩ : FunctionCall) ∈
        (⟨[], 0, 8, []⟩ : GuestState).sharedOutput ∨
      (⟨"HostPrint", some [ParameterValue.String "x"], .Host, .Int⟩ : FunctionCall).kind =
        .Host :=
  c9_call_host_function_frames_are_host_kind (fun _ => .ok ()) (fun _ => 1)
    ⟨[], 0, 8, []⟩ "HostPrint" (some [ParameterValue.String "x"]) .Int
    ⟨"HostPrint", some [ParameterValue.String "x"], .Host, .Int⟩ (by decide)

/-- Helper: once the flag is set, every later attempt loses. -/
theorem run_concurrent_attempts_busy (m : Nat) :
    run_concurrent_attempts true m = List.replicate m .alreadyInProgress := by
  induction m with
  | zero => rfl
  | succ k ih =>
    simp [run_concurrent_attempts, try_enter_guest_call, ih, List.replicate_succ]

/-- Claim C3: among any positive number of concurrent invocations racing
on the executing_guest_call flag (initially false), exactly one
compare-and-set wins and proceeds; every other invocation gets
GuestCallAlreadyInProgress. -/
theorem c3_single_flight_guest_call (n : Nat) (h : 0 < n) :
    (run_concurrent_attempts false n).count .proceeds = 1 ∧
    ∀ o ∈ run_concurrent_attempts false n,
      o ≠ .proceeds → o = .alreadyInProgress := by
  obtain ⟨k, rfl⟩ : ∃ k, n = k + 1 := ⟨n - 1, (Nat.succ_pred_eq_of_pos h).symm⟩
  have hrun : run_concurrent_attempts false (k + 1) =
      GuestCallOutcome.proceeds :: List.replicate k .alreadyInProgress := by
    simp [run_concurrent_attempts, try_enter_guest_call, run_concurrent_attempts_busy]
  constructor
  · rw [hrun]
    simp [List.count_cons, List.count_replicate]
  · intro o ho _hne
    rw [hrun] at ho
    rcases List.mem_cons.mp ho with h1 | h1
    · exact absurd h1 _hne
    · exact List.eq_of_mem_replicate h1

/-- Witness for C3 at two concurrent invocations. -/
theorem c3_single_flight_guest_call_witness :
    0 < 2 ∧ ((run_concurrent_attempts false 2).count .proceeds = 1 ∧
      ∀ o ∈ run_concurrent_attempts false 2,
        o ≠ .proceeds → o = .alreadyInProgress) :=
  ⟨by decide, c3_single_flight_guest_call 2 (by decide)⟩

/-- Claim C6: the guest OutBAction encoding and the host dispatcher's port
classification agree: 99 is Log, 101 is CallFunction, 102 is Abort on both
sides. -/
theorem c6_port_map_agreement :
    OutBAction.Log.toU16 = 99 ∧ OutBAction.CallFunction.toU16 = 101 ∧
    OutBAction.Abort.toU16 = 102 ∧
    hostOutBActionOfPort OutBAction.Log.toU16 = .Log ∧
    hostOutBActionOfPort OutBAction.CallFunction.toU16 = .CallFunction ∧
    hostOutBActionOfPort OutBAction.Abort.toU16 = .Abort := by
  decide

/-- Claim C1 (evaluation at the failing input): a CallFunction (port 101)
turn whose cookie bytes at stack_cookie_addr differ from stack_guard still
writes the host result to shared input and returns Ok, i.e. the VCPU is
resumed with no stack-cookie comparison and no StackOverflow; handle_outb
never reads stack_guard or the cookie bytes. -/
theorem c1_cookie_mismatch_not_detected :
    handle_outb (fun _ _ => .ok (.Int 1))
        ⟨List.replicate 16 1, List.replicate 16 0,
         some ⟨"HostPrint", some [.String "x"], .Host, .Int⟩, []⟩ 101 0 =
      .ok ⟨List.replicate 16 1, List.replicate 16 0,
           some ⟨"HostPrint", some [.String "x"], .Host, .Int⟩, [.Int 1]⟩ ∧
    (List.replicate 16 0 : List Nat) ≠ List.replicate 16 1 := by
  decide

/-- Claim C2 (evaluation at the failing input): an OUT exit on port 102
reaches the `todo` arm of handle_outb and panics; the abort byte 7 is
never read and no GuestAborted error is produced. -/
theorem c2_abort_arm_panics :
    handle_outb (fun _ _ => .ok .Void)
        ⟨List.replicate 16 1, List.replicate 16 1, none, []⟩ 102 7 =
      .panicTodo := by
  decide

/-- Claim C4 (evaluation at the failing input): the guest call
Echo("hello") returns the String("hello") result, but its discriminator
String differs from the return type Int declared by the registered
echo_def. -/
theorem c4_echo_returns_string_but_registered_as_int :
    echo ⟨"Echo", some [.String "hello"], .Guest, .String⟩ =
      .ok (.String "hello") ∧
    (ReturnValue.String "hello").discriminator = .String ∧
    echo_def.return_type = .Int ∧
    (ReturnValue.String "hello").discriminator ≠ echo_def.return_type := by
  refine ⟨rfl, rfl, rfl, by decide⟩

/-- Claim C10: on valid vcpu and sregs handles, the register bank written
by kvm_set_sregisters takes exactly cs, cr0, cr3, cr4 and efer from the
CSRegs argument and every other field unchanged from the stored sregs. -/
theorem c10_kvm_set_sregisters_frame (sregs : SRegs) (csregs : CSRegs) (bank : SRegs)
    (h : kvm_set_sregisters (some ()) (some sregs) csregs = some bank) :
    (bank.cs = csregs.cs ∧ bank.cr0 = csregs.cr0 ∧ bank.cr3 = csregs.cr3 ∧
     bank.cr4 = csregs.cr4 ∧ bank.efer = csregs.efer) ∧
    (bank.ds = sregs.ds ∧ bank.es = sregs.es ∧ bank.fs = sregs.fs ∧
     bank.gs = sregs.gs ∧ bank.ss = sregs.ss ∧ bank.tr = sregs.tr ∧
     bank.ldt = sregs.ldt ∧ bank.gdt = sregs.gdt ∧ bank.idt = sregs.idt ∧
     bank.cr2 = sregs.cr2 ∧ bank.apic_base = sregs.apic_base) := by
  unfold kvm_set_sregisters at h
  simp only [Option.some.injEq] at h
  subst h
  exact ⟨⟨rfl, rfl, rfl, rfl, rfl⟩,
         ⟨rfl, rfl, rfl, rfl, rfl, rfl, rfl, rfl, rfl, rfl, rfl⟩⟩

/-- Witness for C10 at concrete register banks: cs is taken from the
CSRegs argument and ds is kept from the stored bank. -/
theorem c10_kvm_set_sregisters_frame_witness :
    (SRegs.mk 21 2 3 4 5 6 7 8 9 10 31 12 33 34 35 16).cs = 21 ∧
    (SRegs.mk 21 2 3 4 5 6 7 8 9 10 31 12 33 34 35 16).ds = 2 :=
  ⟨(c10_kvm_set_sregisters_frame
      ⟨1, 2, 3, 4, 5, 6, 7, 8, 9, 10, 11, 12, 13, 14, 15, 16⟩
      ⟨21, 22, 23, 24, 25, 26, 27, 28, 29, 30, 31, 32, 33, 34, 35, 36⟩
      ⟨21, 2, 3, 4, 5, 6, 7, 8, 9, 10, 31, 12, 33, 34, 35, 16⟩ rfl).1.1,
   (c10_kvm_set_sregisters_frame
      ⟨1, 2, 3, 4, 5, 6, 7, 8, 9, 10, 11, 12, 13, 14, 15, 16⟩
      ⟨21, 22, 23, 24, 25, 26, 27, 28, 29, 30, 31, 32, 33, 34, 35, 36⟩
      ⟨21, 2, 3, 4, 5, 6, 7, 8, 9, 10, 31, 12, 33, 34, 35, 16⟩ rfl).2.1⟩
